import Mathlib

/-!
Verification of the interaction controller and the node builder of
`src/app/pages/index.tsx` (the `App` React component together with the
`MetaNode` builder class of the metanode spec module).

Shallow embedding conventions:
* The payload type handled by codecs/views is a type parameter `V`
  (JavaScript values are untyped; each concrete registry fixes them).
* React elements are modelled abstractly: a data node's render callback
  yields a `String` (an opaque rendered representation), and the region of
  the page bound to `dataNodeView` is modelled by the inductive `View`.
* The three `useState` hooks (`data`, `dataType`, `prompt`, lines 10-12 of
  the source) become the record `AppState`; event handlers become the
  `step` function on `Action`s.  React batches the `set*` calls of one
  handler, so a handler is one state transition.
* A JavaScript function that can throw is modelled with `Except String`.
-/

namespace Playbook

/-- `Codec` from the spec module: bidirectional conversion between an
in-memory value and its text form.  `JSON.parse`-style decoders throw on
malformed text, so `decode` is fallible. -/
structure Codec (V : Type) where
  encode : V → String
  decode : String → Except String V

/-- The metadata record of a node.  The `App` component only inspects the
optional `example` key (`'example' in node.meta`, line 100, and
`node.meta.example`, line 107), so the embedding retains exactly that;
the field is spelled `exampleVal` because `example` is reserved in Lean. -/
structure NodeMeta (V : Type) where
  exampleVal : Option V

/-- A finalized data node (`MetaNodeDataType`): id (`spec`), metadata,
codec and render callback.  The constant `kind : 'data'` tag is omitted;
the component never reads it. -/
structure DataNode (V : Type) where
  spec : String
  meta : NodeMeta V
  codec : Codec V
  view : V → String

/-- A finalized process node (`MetaNodeGenericProcess`): id, ordered named
inputs (each referencing a data node) and one output data node.  The
prompt/resolve handler functions are external collaborators; their effect
on controller state is modelled by the `Action`s below, so they are not
stored here. -/
structure ProcessNode (V : Type) where
  spec : String
  inputs : List (String × DataNode V)
  output : DataNode V

/-- The interaction state held by the `App` component:
`data` (the text buffer), `dataType` (selected data node id) and
`prompt` (active prompt process id, `undefined` when none), lines 10-12. -/
structure AppState where
  data : String
  dataType : String
  prompt : Option String
deriving DecidableEq

/-- The initial state: `useState('')`, `useState('')`, `useState(undefined)`. -/
def initialState : AppState := ⟨"", "", none⟩

/-- JavaScript truthiness of the `prompt` state as used by
`if (prompt)` (line 15): `undefined` and the empty string are falsy. -/
def activePrompt (s : AppState) : Option String :=
  match s.prompt with
  | some pid => if pid = "" then none else some pid
  | none => none

/-- Registry lookup `dataNodes[dataType]` (line 13): the registries are
string-keyed objects, modelled as association lists looked up by `spec`. -/
def lookupData {V : Type} (dns : List (DataNode V)) (spec : String) : Option (DataNode V) :=
  dns.find? (fun n => n.spec == spec)

/-- Registry lookup `promptNodes[prompt]` (line 16). -/
def lookupProc {V : Type} (pns : List (ProcessNode V)) (spec : String) : Option (ProcessNode V) :=
  pns.find? (fun n => n.spec == spec)

/-- `Object.keys(promptNodes[prompt].inputs)[0]` (line 18).  Indexing an
empty key list yields `undefined`, and a computed object key `undefined`
is stringified by JavaScript to the literal property name `"undefined"`. -/
def firstInputKey (keys : List String) : String :=
  match keys with
  | [] => "undefined"
  | k :: _ => k

/-- The `inputs` object handed to the active prompt's handler
(line 18): `{ [Object.keys(promptNodes[prompt].inputs)[0]]: data }` —
a single-entry object mapping the first declared input name (or
`"undefined"` when there are none) to the raw current text. -/
def handlerPromptInputs {V : Type} (p : ProcessNode V) (text : String) : List (String × String) :=
  [(firstInputKey (p.inputs.map Prod.fst), text)]

/-- The `FormData` built by the resolve button's click handler
(lines 60-64): `for (const i in proc.inputs) formData.append(i, data)` —
every declared input name is mapped to the raw current buffer text;
the commented-out per-input encode is not executed. -/
def resolveFormData {V : Type} (p : ProcessNode V) (text : String) : List (String × String) :=
  p.inputs.map (fun i => (i.1, text))

/-- Completion of a resolve invocation (lines 65-72).  The transport
(`fetch` + `req.json()`) is modelled as an `Except String String` result:
`ok res` is the JSON-decoded response adopted verbatim as the new buffer.
The handler has no `try`/`catch`, so on a rejected `await` it aborts
before any `set*` call runs and the rejection propagates out of the
handler; the propagated error is the second component. -/
def resolveSettle {V : Type} (p : ProcessNode V) (result : Except String String)
    (s : AppState) : AppState × Option String :=
  match result with
  | Except.ok res => (⟨res, p.output.spec, none⟩, none)
  | Except.error e => (s, some e)

/-- The discrete user/handler events that drive the controller. -/
inductive Action (V : Type) where
  /-- the type `select`'s `onChange` (lines 117-120) -/
  | selectType (t : String)
  /-- the `JsonEditor`'s `onValueChange` (line 88) -/
  | editText (t : String)
  /-- a prompt process button's `onClick` (line 45) -/
  | invokePrompt (p : ProcessNode V)
  /-- the `submit` callback handed to the active prompt `p`'s handler
  (lines 19-23) -/
  | submitPrompt (p : ProcessNode V) (v : V)
  /-- a resolve button's `onClick` whose transport succeeded with
  JSON-decoded response `res` (lines 59-73) -/
  | resolveSuccess (p : ProcessNode V) (res : String)
  /-- a resolve button's `onClick` whose transport rejected or whose
  response body was not JSON-decodable (lines 59-69) -/
  | resolveFailure (p : ProcessNode V) (e : String)
  /-- a load-example button's `onClick` (lines 104-108); the button is
  only rendered for nodes passing the `'example' in node.meta` filter -/
  | loadExample (n : DataNode V)

/-- One controller transition: the batched effect of a single event
handler on the interaction state. -/
def step {V : Type} (a : Action V) (s : AppState) : AppState :=
  match a with
  | Action.selectType t => ⟨s.data, t, none⟩
  | Action.editText t => ⟨t, s.dataType, s.prompt⟩
  | Action.invokePrompt p => ⟨s.data, s.dataType, some p.spec⟩
  | Action.submitPrompt p v => ⟨(p.output.codec.encode v), p.output.spec, none⟩
  | Action.resolveSuccess p res => (resolveSettle p (Except.ok res) s).1
  | Action.resolveFailure p e => (resolveSettle p (Except.error e) s).1
  | Action.loadExample n =>
    match n.meta.exampleVal with
    | some ex => ⟨n.codec.encode ex, n.spec, none⟩
    | none => s

/-- The `dataNodeView` page region (lines 14-31).  The surrounding page
chrome (the process buttons, the editor and the type select) is always
rendered and is modelled by the `Action`s instead. -/
inductive View where
  /-- rendering is handed to the active prompt's handler with the
  single-entry inputs object (lines 16-24) -/
  | promptDelegated (promptSpec : String) (handlerInputs : List (String × String))
  /-- `promptNodes[prompt]` was `undefined`: line 16 throws a
  `TypeError` while rendering -/
  | missingPromptCrash
  /-- successful decode and render (line 27) -/
  | dataView (content : String)
  /-- the catch branch (line 29):
  `Error rendering {dataNode.spec}: {e.toString()}` -/
  | renderErrorDiv (spec : String) (errMsg : String)
  /-- no active prompt and no data node selected: `dataNodeView` stays
  `undefined` and line 124 renders `null` -/
  | blank
deriving DecidableEq

/-- Computing `dataNodeView` (lines 13-31): an active prompt delegates to
its handler; otherwise the selected node's codec decodes the buffer and
the node's view renders it, a throw being caught into the error div. -/
def renderApp {V : Type} (dns : List (DataNode V)) (pns : List (ProcessNode V))
    (s : AppState) : View :=
  match activePrompt s with
  | some pid =>
    match lookupProc pns pid with
    | some proc => View.promptDelegated proc.spec (handlerPromptInputs proc s.data)
    | none => View.missingPromptCrash
  | none =>
    match lookupData dns s.dataType with
    | some node =>
      match node.codec.decode s.data with
      | Except.ok v => View.dataView (node.view v)
      | Except.error e => View.renderErrorDiv node.spec e
    | none => View.blank

/-- Rendering as a step of the machine: it produces the view and, calling
no state setter (lines 13-31 contain no `set*`), leaves the state as is. -/
def renderStep {V : Type} (dns : List (DataNode V)) (pns : List (ProcessNode V))
    (s : AppState) : View × AppState :=
  (renderApp dns pns s, s)

/-- The load-example button row (lines 98-110): the registry is filtered
to the nodes whose metadata carries an `example` value; only those get a
button. -/
def exampleButtons {V : Type} (dns : List (DataNode V)) : List (DataNode V) :=
  dns.filter (fun n => n.meta.exampleVal.isSome)

/-- The type of an interactive prompt handler (`MetaNodePrompt`): given
the inputs object and the submit callback it yields a rendered element.
It is an external collaborator; only its type shape matters here. -/
def PromptFn (V : Type) : Type := List (String × String) → (V → Unit) → String

/-- The type of an automatic resolve handler (`MetaNodeResolve`): given
the inputs object it yields the output value or fails; the `Promise` is
modelled as a fallible result. -/
def ResolveFn (V : Type) : Type := List (String × String) → Except String V

/-- The growing attribute object `this.t` of the `MetaNode` builder
class: each attribute is absent (`none`) until its builder step runs.
The compile-time staged typing of the source is represented by this
single record of optional fields. -/
structure NodeAttrs (V : Type) where
  spec : Option String := none
  kind : Option String := none
  meta : Option (NodeMeta V) := none
  codec : Option (Codec V) := none
  view : Option (V → String) := none
  inputs : Option (List (String × DataNode V)) := none
  output : Option (DataNode V) := none
  prompt : Option (PromptFn V) := none
  resolve : Option (ResolveFn V) := none

/-- The `MetaNode<T>` builder class: a wrapper around the attribute
object `t` (`constructor(public t: T)`). -/
structure MetaNode (V : Type) where
  t : NodeAttrs V

/-- `MetaNode.createData(spec)`: `new MetaNode({ spec, kind: 'data' })`. -/
def MetaNode.createData {V : Type} (spec : String) : MetaNode V :=
  ⟨{ spec := some spec, kind := some "data" }⟩

/-- `MetaNode.createProcess(spec)`:
`new MetaNode({ spec, kind: 'process' })`. -/
def MetaNode.createProcess {V : Type} (spec : String) : MetaNode V :=
  ⟨{ spec := some spec, kind := some "process" }⟩

/-- The `meta` builder step: `new MetaNode({ ...this.t, meta })` — the
object spread copies the prior attributes into a fresh object and adds
(or overwrites) `meta`; `this.t` is not mutated. -/
def MetaNode.meta {V : Type} (b : MetaNode V) (m : NodeMeta V) : MetaNode V :=
  ⟨{ b.t with meta := some m }⟩

/-- The `codec` builder step: `new MetaNode({ ...this.t, codec })`. -/
def MetaNode.codec {V : Type} (b : MetaNode V) (c : Codec V) : MetaNode V :=
  ⟨{ b.t with codec := some c }⟩

/-- The `view` builder step: `new MetaNode({ ...this.t, view })`. -/
def MetaNode.view {V : Type} (b : MetaNode V) (vw : V → String) : MetaNode V :=
  ⟨{ b.t with view := some vw }⟩

/-- The `inputs` builder step: `new MetaNode({ ...this.t, inputs })`. -/
def MetaNode.inputs {V : Type} (b : MetaNode V) (ins : List (String × DataNode V)) :
    MetaNode V :=
  ⟨{ b.t with inputs := some ins }⟩

/-- The `output` builder step: `new MetaNode({ ...this.t, output })`. -/
def MetaNode.output {V : Type} (b : MetaNode V) (out : DataNode V) : MetaNode V :=
  ⟨{ b.t with output := some out }⟩

/-- The `prompt` builder step: `new MetaNode({ ...this.t, prompt })`. -/
def MetaNode.prompt {V : Type} (b : MetaNode V) (ph : PromptFn V) : MetaNode V :=
  ⟨{ b.t with prompt := some ph }⟩

/-- The `resolve` builder step: `new MetaNode({ ...this.t, resolve })`. -/
def MetaNode.resolve {V : Type} (b : MetaNode V) (rh : ResolveFn V) : MetaNode V :=
  ⟨{ b.t with resolve := some rh }⟩

/-- `build()`: `return this.t` — the finalized attribute object. -/
def MetaNode.build {V : Type} (b : MetaNode V) : NodeAttrs V :=
  b.t

/-! ### Concrete registry instances

A tiny registry over `V := Nat`, used to instantiate the universal
theorems below on concrete inputs (it mirrors the `Number`-typed example
of the spec's testable properties). -/

/-- Accumulating decimal parser over a character list, rejecting any
non-digit character. -/
def digitsToNat : List Char → Nat → Option Nat
  | [], acc => some acc
  | c :: cs, acc =>
    if c.isDigit then digitsToNat cs (acc * 10 + (c.toNat - 48)) else none

/-- A codec for a decimal-text number type: encode by printing, decode by
parsing, failing on non-numeric text the way `JSON.parse` throws. -/
def natCodec : Codec Nat where
  encode := fun n => toString n
  decode := fun t =>
    match t.data with
    | [] => Except.error ("unparseable Number: " ++ t)
    | l =>
      match digitsToNat l 0 with
      | some n => Except.ok n
      | none => Except.error ("unparseable Number: " ++ t)

/-- A data node `Number` whose metadata carries the example value 21. -/
def numberNode : DataNode Nat where
  spec := "Number"
  meta := { exampleVal := some 21 }
  codec := natCodec
  view := fun n => toString n

/-- A data node `Term` without an example in its metadata. -/
def termNode : DataNode Nat where
  spec := "Term"
  meta := { exampleVal := none }
  codec := natCodec
  view := fun n => toString n

/-- A process node with one declared input, named `input`, of `Number`. -/
def demoPrompt : ProcessNode Nat where
  spec := "InputNumber"
  inputs := [("input", numberNode)]
  output := numberNode

/-- A source process node with no declared inputs. -/
def demoSource : ProcessNode Nat where
  spec := "RandomNumber"
  inputs := []
  output := numberNode

/-- A process node with two declared inputs. -/
def demoDouble : ProcessNode Nat where
  spec := "Double"
  inputs := [("lhs", numberNode), ("rhs", termNode)]
  output := numberNode

/-- A state with an active prompt, used to examine which transitions the
component still performs while `prompt` is set. -/
def promptingState : AppState := ⟨"21", "Number", some "InputNumber"⟩

/-! ### Theorems for the claims -/

/-- Claim C1: when the resolve transport fails (the request rejects or
the body is not JSON-decodable), the interaction state is unchanged —
`currentTypeId` (`dataType`) and `currentText` (`data`) keep their prior
values — and the error propagates out of the handler instead of empty or
partial data being adopted. -/
theorem c1_resolve_failure_preserves_state {V : Type} (p : ProcessNode V)
    (e : String) (s : AppState) :
    (resolveSettle p (Except.error e) s).1.dataType = s.dataType ∧
    (resolveSettle p (Except.error e) s).1.data = s.data ∧
    (resolveSettle p (Except.error e) s).2 = some e :=
  ⟨rfl, rfl, rfl⟩

/-- Claim C2, counterexample to the claim as stated: in a state whose
prompt is active, the select-type action (the type `select`'s `onChange`,
always rendered, lines 115-123) and the edit-text action (the
`JsonEditor`, always rendered, lines 86-94) still perform state
transitions other than the prompt's own submit, so they are not
unavailable while Prompting. -/
theorem c2_counterexample :
    promptingState.prompt = some "InputNumber" ∧
    step (Action.selectType "Term" : Action Nat) promptingState ≠ promptingState ∧
    step (Action.editText "99" : Action Nat) promptingState ≠ promptingState :=
  ⟨rfl, by decide, by decide⟩

/-- Claim C2, amended: while a prompt is active, the data-node view slot
is delegated entirely to the active prompt's handler, but the select-type
and edit-text actions remain available: selecting a type clears the
active prompt and sets the current type id, and editing text replaces the
buffer while leaving the prompt active. -/
theorem c2_amended_prompting_transitions {V : Type} (dns : List (DataNode V))
    (pns : List (ProcessNode V)) (s : AppState) (pid : String)
    (proc : ProcessNode V) (t u : String)
    (h1 : activePrompt s = some pid)
    (h2 : lookupProc pns pid = some proc) :
    renderApp dns pns s = View.promptDelegated proc.spec (handlerPromptInputs proc s.data) ∧
    step (Action.selectType t : Action V) s = ⟨s.data, t, none⟩ ∧
    step (Action.editText u : Action V) s = ⟨u, s.dataType, s.prompt⟩ := by
  refine ⟨?_, rfl, rfl⟩
  simp [renderApp, h1, h2]

/-- Witness for the amended Claim C2 at a concrete prompting state. -/
theorem c2_witness :
    activePrompt promptingState = some "InputNumber" ∧
    lookupProc [demoPrompt] "InputNumber" = some demoPrompt ∧
    (renderApp ([] : List (DataNode Nat)) [demoPrompt] promptingState =
        View.promptDelegated "InputNumber" [("input", "21")] ∧
      step (Action.selectType "Term" : Action Nat) promptingState = ⟨"21", "Term", none⟩ ∧
      step (Action.editText "99" : Action Nat) promptingState =
        ⟨"99", "Number", some "InputNumber"⟩) :=
  ⟨rfl, rfl,
    c2_amended_prompting_transitions [] [demoPrompt] promptingState "InputNumber"
      demoPrompt "Term" "99" rfl rfl⟩

/-- Claim C3: invoking a resolve operation sends a request in which each
declared input name of the operation is mapped to the same raw current
text, with no decoding or conversion applied to any input. -/
theorem c3_resolve_sends_raw_text_to_every_input {V : Type} (p : ProcessNode V)
    (text : String) :
    (resolveFormData p text).map Prod.fst = p.inputs.map Prod.fst ∧
    ∀ entry, entry ∈ resolveFormData p text → entry.2 = text := by
  constructor
  · simp [resolveFormData]
  · intro entry h
    rcases List.mem_map.mp h with ⟨i, _, rfl⟩
    rfl

/-- Witness for Claim C3 on the two-input `Double` operation. -/
theorem c3_witness :
    ("lhs", "21") ∈ resolveFormData demoDouble "21" ∧
    (("lhs", "21") : String × String).2 = "21" :=
  ⟨by decide,
    (c3_resolve_sends_raw_text_to_every_input demoDouble "21").2 ("lhs", "21") (by decide)⟩

/-- Claim C4: on a successful remote response, the state becomes
`Viewing(r.output, response)` — the current type id is the operation's
output node id, the current text is the raw value the transport returned
(adopted verbatim, no decode or re-encode), and any active prompt is
cleared. -/
theorem c4_resolve_success_adopts_raw_response {V : Type} (p : ProcessNode V)
    (res : String) (s : AppState) :
    step (Action.resolveSuccess p res) s = ⟨res, p.output.spec, none⟩ :=
  rfl

/-- Claim C5: submitting value `v` from an active prompt operation `p`
moves the state to `Viewing(p.output, encode(v))` — the current type id
is `p`'s output id, the current text is `p`'s output codec's `encode`
applied to `v` — and the active prompt is cleared. -/
theorem c5_prompt_submit_encodes_output {V : Type} (p : ProcessNode V) (v : V)
    (s : AppState) :
    step (Action.submitPrompt p v) s = ⟨p.output.codec.encode v, p.output.spec, none⟩ :=
  rfl

/-- Claim C6: a prompt operation with at least one declared input hands
its handler an inputs object with exactly one entry: the first declared
input name mapped to the raw current text. -/
theorem c6_prompt_handler_receives_first_input_raw {V : Type} (p : ProcessNode V)
    (text : String) (k : String) (rest : List String)
    (h : p.inputs.map Prod.fst = k :: rest) :
    handlerPromptInputs p text = [(k, text)] := by
  unfold handlerPromptInputs
  rw [h]
  rfl

/-- Witness for Claim C6 on the one-input prompt operation. -/
theorem c6_witness :
    demoPrompt.inputs.map Prod.fst = "input" :: [] ∧
    handlerPromptInputs demoPrompt "21" = [("input", "21")] :=
  ⟨rfl, c6_prompt_handler_receives_first_input_raw demoPrompt "21" "input" [] rfl⟩

/-- Claim C7: when the selected data node's codec fails to decode the
buffer, rendering yields the visible error view carrying that node's type
id and the underlying error message (the catch branch's
`Error rendering {spec}: {e}` div) instead of crashing, and the
interaction state is unchanged by the failed render. -/
theorem c7_decode_failure_renders_attributed_error {V : Type}
    (dns : List (DataNode V)) (pns : List (ProcessNode V)) (s : AppState)
    (node : DataNode V) (e : String)
    (hp : activePrompt s = none)
    (hn : lookupData dns s.dataType = some node)
    (hd : node.codec.decode s.data = Except.error e) :
    renderStep dns pns s = (View.renderErrorDiv node.spec e, s) := by
  simp [renderStep, renderApp, hp, hn, hd]

/-- Witness for Claim C7: a malformed `Number` buffer. -/
theorem c7_witness :
    activePrompt ⟨"twenty", "Number", none⟩ = none ∧
    lookupData [numberNode] "Number" = some numberNode ∧
    numberNode.codec.decode "twenty" = Except.error "unparseable Number: twenty" ∧
    renderStep [numberNode] ([] : List (ProcessNode Nat)) ⟨"twenty", "Number", none⟩ =
      (View.renderErrorDiv "Number" "unparseable Number: twenty",
        ⟨"twenty", "Number", none⟩) :=
  ⟨rfl, rfl, rfl,
    c7_decode_failure_renders_attributed_error [numberNode] [] ⟨"twenty", "Number", none⟩
      numberNode "unparseable Number: twenty" rfl rfl rfl⟩

/-- Claim C8: the load-example action of a data node whose metadata
carries an example sets the current type id to that node, the buffer to
the node's codec's `encode` of the example, and clears any active prompt;
and every node offering a load-example button passed the
`'example' in node.meta` filter, so exampleless nodes offer none. -/
theorem c8_load_example {V : Type} (n : DataNode V) (ex : V) (s : AppState)
    (dns : List (DataNode V)) (h : n.meta.exampleVal = some ex) :
    step (Action.loadExample n) s = ⟨n.codec.encode ex, n.spec, none⟩ ∧
    ∀ m, m ∈ exampleButtons dns → m.meta.exampleVal.isSome = true := by
  constructor
  · simp [step, h]
  · intro m hm
    exact (List.mem_filter.mp hm).2

/-- Witness for Claim C8 on the `Number` node with example 21. -/
theorem c8_witness :
    numberNode.meta.exampleVal = some 21 ∧
    step (Action.loadExample numberNode) initialState = ⟨"21", "Number", none⟩ ∧
    numberNode.meta.exampleVal.isSome = true :=
  ⟨rfl, (c8_load_example numberNode 21 initialState [numberNode] rfl).1,
    (c8_load_example numberNode 21 initialState [numberNode] rfl).2 numberNode
      (show numberNode ∈ [numberNode] from List.mem_singleton_self numberNode)⟩

/-- Claim C9: every builder step (`meta`, `codec`, `view`, `inputs`,
`output`, `prompt`, `resolve`) yields a new builder whose attribute
object is the prior one plus the added attribute; the builder it was
called on is unaffected (the object spread copies rather than mutates —
in this embedding the steps are pure record updates, so the original
value is inherently unchanged), which lets a partial builder be reused to
derive several nodes, as the last two conjuncts show. -/
theorem c9_builder_steps_are_functional_updates {V : Type} (b : MetaNode V)
    (m : NodeMeta V) (c : Codec V) (vw : V → String)
    (ins : List (String × DataNode V)) (out : DataNode V)
    (ph : PromptFn V) (rh : ResolveFn V) :
    (b.meta m).t = { b.t with meta := some m } ∧
    (b.codec c).t = { b.t with codec := some c } ∧
    (b.view vw).t = { b.t with view := some vw } ∧
    (b.inputs ins).t = { b.t with inputs := some ins } ∧
    (b.output out).t = { b.t with output := some out } ∧
    (b.prompt ph).t = { b.t with prompt := some ph } ∧
    (b.resolve rh).t = { b.t with resolve := some rh } ∧
    ((b.output out).prompt ph).t = { b.t with output := some out, prompt := some ph } ∧
    ((b.output out).resolve rh).t = { b.t with output := some out, resolve := some rh } :=
  ⟨rfl, rfl, rfl, rfl, rfl, rfl, rfl, rfl, rfl⟩

/-- Claim C10: a prompt operation with an empty declared-inputs mapping
hands its handler an inputs object whose single key is the literal string
`"undefined"` (JavaScript stringifies the `undefined` produced by
indexing the empty key list) mapped to the raw current text, not an empty
mapping. -/
theorem c10_empty_inputs_prompt_gets_undefined_key {V : Type} (p : ProcessNode V)
    (text : String) (h : p.inputs = []) :
    handlerPromptInputs p text = [("undefined", text)] := by
  unfold handlerPromptInputs
  rw [h]
  rfl

/-- Witness for Claim C10 on the no-input source operation. -/
theorem c10_witness :
    demoSource.inputs = ([] : List (String × DataNode Nat)) ∧
    handlerPromptInputs demoSource "21" = [("undefined", "21")] :=
  ⟨rfl, c10_empty_inputs_prompt_gets_undefined_key demoSource "21" rfl⟩

end Playbook
